import Mathlib

/-!
Shallow embedding of `src/shell.c` (a minimal command-line shell).

Strings are modelled as `List Char` (the characters of a NUL-terminated C
string, NUL excluded).  The pieces of the OS that the shell consults
(`stat`/`S_ISREG`, `getenv("PATH")`, `getenv("HOME")`, `chdir`, `fork`,
`waitpid`, the child's termination status) are passed in as an explicit
oracle structure `OS`, so every shell function is a pure function of its
inputs and the oracle.

The header `shell.h` is not part of the sources; the constants it defines
(`MAX_ARG_LEN`, `MAX_LINE_SIZE`, `SUCCESS`, `ERROR`) are treated as
follows: the two buffer sizes are kept as explicit `Nat` parameters
(`maxArgLen`, `maxLineSize`), and `SUCCESS`/`ERROR` are modelled from the
spec (see their doc comments).
-/

/-- Delimiter set of `strtok(line, " \t\n")` used by `parse` in shell.c:
space, tab and newline. -/
def isWS (c : Char) : Bool := c = ' ' || c = '\t' || c = '\n'

/-- Delimiter set of `strtok(path, ":")` used by `find_full_path`. -/
def isColon (c : Char) : Bool := c = ':'

/-- The full sequence of tokens produced by a `strtok` loop with delimiter
predicate `p`: skip delimiters, then a token is the maximal run of
non-delimiter characters, and so on.  This models the two `while`
loops over `strtok` in `parse` (lines 53-59 and 76-89) and the loop in
`find_full_path` (lines 122-157). -/
def strtokAll (p : Char → Bool) : List Char → List (List Char)
  | [] => []
  | c :: cs =>
    if p c then strtokAll p cs
    else (c :: cs.takeWhile (fun x => !(p x))) :: strtokAll p (cs.dropWhile (fun x => !(p x)))
termination_by l => l.length
decreasing_by
  · simp
  · have h := (List.dropWhile_sublist (l := cs) (fun x => !(p x))).length_le
    simp only [List.length_cons]
    omega

/-- The `command` struct of shell.h: an argument count and the argument
vector.  `argv` holds the `argc` argument strings; the trailing `NULL`
sentinel slot written by `create_command` is implicit (reading index
`argc` of the C array yields `NULL`, which the model renders as
`argv[i]? = none` for any out-of-range `i`). -/
structure command where
  argc : Nat
  argv : List (List Char)
deriving DecidableEq, Repr

/-- `parse` (shell.c lines 38-97).  A `NULL` line yields `NULL`.
Otherwise the line is tokenized twice on `" \t\n"` over a private copy:
once to count the tokens (so `create_command` sizes `argv` exactly), and
once to copy each token into its slot with
`strncpy(argv[i], tok, MAX_ARG_LEN - 1)` followed by
`argv[i][MAX_ARG_LEN - 1] = NUL`, i.e. the stored string is the first
`MAX_ARG_LEN - 1` characters of the token.  Both passes tokenize the same
characters, so token `i` exists for every `i < argc` and slot `i` holds
the truncation of token `i`. -/
def parse (maxArgLen : Nat) (line : Option (List Char)) : Option command :=
  match line with
  | none => none
  | some l =>
    some { argc := (strtokAll isWS l).length
           argv := (strtokAll isWS l).map (fun t => t.take (maxArgLen - 1)) }

/-- The string `"cd"`. -/
def cdChars : List Char := ['c', 'd']

/-- The string `"exit"`. -/
def exitChars : List Char := ['e', 'x', 'i', 't']

/-- Modelled from the spec: shell.h (absent from the sources) defines the
two result codes.  `do_builtin` returns the value of `chdir` unchanged
(0 on success, -1 on failure) while the spec says the result is always
one of SUCCESS/ERROR, so SUCCESS is 0. -/
def SUCCESS : Int := 0

/-- Modelled from the spec: shell.h (absent from the sources) defines the
two result codes; ERROR is the failure value of `chdir` (-1),
see `SUCCESS`. -/
def ERROR : Int := -1

/-- Termination status of a child process as reported by `waitpid`:
either a normal exit with the (8-bit) code passed to `exit`, or
termination by a signal. -/
inductive WaitStatus where
  | exited (code : Nat)
  | signaled (sig : Nat)
deriving DecidableEq, Repr

/-- `WIFEXITED(status)`: the child terminated normally. -/
def WIFEXITED : WaitStatus → Bool
  | .exited _ => true
  | .signaled _ => false

/-- `WEXITSTATUS(status)`: the exit code of a normally terminated child.
For a signaled child the C macro yields an unspecified value that the
code never inspects (`&&` short-circuits after `WIFEXITED`); the model
returns 0 there. -/
def WEXITSTATUS : WaitStatus → Nat
  | .exited code => code
  | .signaled _ => 0

/-- Oracle for the pieces of the operating system the shell consults.
`isRegFile s` models `stat(s, &buffer) == 0 && S_ISREG(buffer.st_mode)`;
`path_env`/`home_env` model `getenv("PATH")`/`getenv("HOME")` (`none` =
unset); `chdirOk` tells whether `chdir` on a given (possibly `NULL`)
path succeeds; `forkFails`/`waitpidFails` model failure of the two
process primitives; `childStatus` is the termination status the child
would report (an `execv` failure makes the child `exit(EXIT_FAILURE)`,
which is an `exited` status with a nonzero code). -/
structure OS where
  isRegFile : List Char → Bool
  path_env : Option (List Char)
  home_env : Option (List Char)
  chdirOk : Option (List Char) → Bool
  forkFails : Bool
  waitpidFails : Bool
  childStatus : WaitStatus

/-- Modelled from POSIX: `chdir` returns 0 when the directory change
succeeds and -1 when it fails (also for a `NULL` path). -/
def chdir (os : OS) (p : Option (List Char)) : Int :=
  if os.chdirOk p then 0 else -1

/-- The `snprintf(full_path, MAX_LINE_SIZE, "%s/%s", dir, argv0)` of
`find_full_path` (lines 128-132): the concatenation `dir ++ "/" ++ argv0`
truncated to at most `MAX_LINE_SIZE - 1` characters (snprintf always
leaves room for the terminator). -/
def full_path_of (maxLineSize : Nat) (dir a0 : List Char) : List Char :=
  (dir ++ '/' :: a0).take (maxLineSize - 1)

/-- The directory loop of `find_full_path` (lines 126-157): try each
directory token in order; on the first `d` whose `d/argv0` is an
existing regular file, stop and yield that full path. -/
def tryDirs (isRegFile : List Char → Bool) (maxLineSize : Nat) (a0 : List Char) :
    List (List Char) → Option (List Char)
  | [] => none
  | d :: ds =>
    if isRegFile (full_path_of maxLineSize d a0) then some (full_path_of maxLineSize d a0)
    else tryDirs isRegFile maxLineSize a0 ds

/-- `find_full_path` (shell.c lines 101-166).  Guards against a `NULL`
command or `NULL` `argv[0]`; fails when `$PATH` is unset; otherwise
tokenizes a copy of `$PATH` on `":"` and scans the directories in order.
On the first match it frees the old `argv[0]` and replaces it with a
fresh buffer of exactly `strlen(full_path) + 1` bytes holding the full
path, returning `true`; otherwise everything is left unchanged and it
returns `false`.  The returned `command` is the (possibly mutated)
argument. -/
def find_full_path (maxLineSize : Nat) (isRegFile : List Char → Bool)
    (path_env : Option (List Char)) : Option command → Option command × Bool
  | none => (none, false)
  | some cmd =>
    match cmd.argv[0]? with
    | none => (some cmd, false)
    | some a0 =>
      match path_env with
      | none => (some cmd, false)
      | some p =>
        match tryDirs isRegFile maxLineSize a0 (strtokAll isColon p) with
        | some fp => (some { cmd with argv := fp :: cmd.argv.tail }, true)
        | none => (some cmd, false)

/-- `is_builtin` (shell.c lines 251-259): `argv[0]` equals `"cd"` or
`"exit"` (case-sensitive `strcmp`).  `execute` only calls this after
checking `argv[0] != NULL`; on a command with no argument 0 the C code
would pass `NULL` to `strcmp` (undefined behavior), the model returns
`false`. -/
def is_builtin (cmd : command) : Bool :=
  match cmd.argv[0]? with
  | some a0 => a0 == cdChars || a0 == exitChars
  | none => false

/-- Result of `do_builtin`: either the whole shell process terminates
(the `exit` builtin calls `exit(SUCCESS)` and never returns), or a
result code is returned to the caller. -/
inductive BuiltinOutcome where
  | exitProcess (code : Int)
  | ret (code : Int)
deriving DecidableEq, Repr

/-- `do_builtin` (shell.c lines 262-275).  `exit` terminates the process
with SUCCESS; otherwise the command is treated as `cd`: with `argc == 1`
it is `chdir(getenv("HOME"))`, with `argc == 2` it is
`chdir(argv[1])` — the value of `chdir` is returned unchanged — and with
any larger `argc` it prints "cd: Too many arguments" to stderr and
returns ERROR.  `execute` only calls this with `argv[0] != NULL`; the
`none` branch (undefined behavior in C) returns ERROR. -/
def do_builtin (os : OS) (cmd : command) : BuiltinOutcome :=
  match cmd.argv[0]? with
  | none => .ret ERROR
  | some a0 =>
    if a0 == exitChars then .exitProcess SUCCESS
    else if cmd.argc = 1 then .ret (chdir os os.home_env)
    else if cmd.argc = 2 then .ret (chdir os cmd.argv[1]?)
    else .ret ERROR

/-- How one call to `execute` ends: `exitShell` when the process itself
terminates (the `exit` builtin), `done r` when `execute` returns `r` to
its caller. -/
inductive ExecEffect where
  | exitShell (code : Int)
  | done (ret : Int)
deriving DecidableEq, Repr

/-- Observable trace of one `execute` call: how it ended, whether a
child process was spawned (`fork` reached and succeeded), and whether
the "Command ... not found!" message was printed. -/
structure ExecTrace where
  effect : ExecEffect
  spawned : Bool
  printedNotFound : Bool
deriving DecidableEq, Repr

/-- `execute` (shell.c lines 170-229).  Validation: a `NULL` command or
`NULL` `argv[0]` returns ERROR immediately.  A builtin is dispatched to
`do_builtin` (no spawn).  Otherwise `find_full_path` must succeed, else
the not-found message is printed and ERROR returned (no spawn).  Then
`fork`; on failure ERROR.  The child `execv`s the resolved path (its
failure surfaces only through `os.childStatus`).  The parent `waitpid`s;
on wait failure ERROR; otherwise SUCCESS exactly when
`WIFEXITED(status) && WEXITSTATUS(status) == 0`, else ERROR. -/
def execute (maxLineSize : Nat) (os : OS) (cmd : Option command) : ExecTrace :=
  match cmd with
  | none => { effect := .done ERROR, spawned := false, printedNotFound := false }
  | some c =>
    match c.argv[0]? with
    | none => { effect := .done ERROR, spawned := false, printedNotFound := false }
    | some _ =>
      if is_builtin c then
        match do_builtin os c with
        | .exitProcess code =>
          { effect := .exitShell code, spawned := false, printedNotFound := false }
        | .ret r => { effect := .done r, spawned := false, printedNotFound := false }
      else
        match find_full_path maxLineSize os.isRegFile os.path_env (some c) with
        | (_, false) => { effect := .done ERROR, spawned := false, printedNotFound := true }
        | (_, true) =>
          if os.forkFails then
            { effect := .done ERROR, spawned := false, printedNotFound := false }
          else if os.waitpidFails then
            { effect := .done ERROR, spawned := true, printedNotFound := false }
          else if WIFEXITED os.childStatus && WEXITSTATUS os.childStatus == 0 then
            { effect := .done SUCCESS, spawned := true, printedNotFound := false }
          else
            { effect := .done ERROR, spawned := true, printedNotFound := false }

/-- Specification-side definition (spec 4.1/4.2 wording): split a string
at every delimiter character, keeping empty segments, so that the
segments between, before and after delimiters are all present.  Used to
compare the `strtok` loops with the spec's "colon-separated segments"
and "maximal non-whitespace runs". -/
def splitKeepEmpties (p : Char → Bool) : List Char → List (List Char)
  | [] => [[]]
  | c :: cs =>
    if p c then [] :: splitKeepEmpties p cs
    else
      match splitKeepEmpties p cs with
      | [] => [[c]]
      | t :: ts => (c :: t) :: ts

/-- Helper for `runCount`: counts the maximal runs of non-delimiter
characters in the remainder, given whether we are currently inside such
a run. -/
def runCountAux (p : Char → Bool) : Bool → List Char → Nat
  | _, [] => 0
  | inRun, c :: cs =>
    if p c then runCountAux p false cs
    else (if inRun then 0 else 1) + runCountAux p true cs

/-- Specification-side definition (spec 8, "Whitespace collapsing"): the
number of maximal runs of non-delimiter characters in a string. -/
def runCount (p : Char → Bool) (s : List Char) : Nat := runCountAux p false s

/-! ## Helper lemmas about the strtok tokenizer -/

/-- Every token produced by a `strtok` loop is non-empty. -/
theorem strtok_ne_nil (p : Char → Bool) (s : List Char) : ∀ t ∈ strtokAll p s, t ≠ [] := by
  induction s using strtokAll.induct p with
  | case1 => simp [strtokAll]
  | case2 c cs hp ih =>
    intro t ht
    refine ih t ?_
    simpa [strtokAll, hp] using ht
  | case3 c cs hp ih =>
    simp only [strtokAll, hp, Bool.false_eq_true, if_false]
    intro t ht
    rcases List.mem_cons.1 ht with h | h
    · simp [h]
    · exact ih t h

/-- Unfolding of `splitKeepEmpties`: the first segment is the leading run
of non-delimiter characters, and the rest restarts after the first
delimiter (if any). -/
theorem split_head (p : Char → Bool) (s : List Char) :
    splitKeepEmpties p s =
      s.takeWhile (fun x => !(p x)) ::
        (match s.dropWhile (fun x => !(p x)) with
          | [] => []
          | _ :: rest => splitKeepEmpties p rest) := by
  induction s with
  | nil => simp [splitKeepEmpties]
  | cons c cs ih =>
    by_cases hp : p c
    · simp [splitKeepEmpties, hp, List.takeWhile_cons, List.dropWhile_cons]
    · simp only [splitKeepEmpties, hp, Bool.false_eq_true, if_false,
        List.takeWhile_cons, List.dropWhile_cons, Bool.not_false, if_true]
      rw [ih]

/-- The `strtok` loop yields exactly the non-empty segments of the
delimiter-split string, in order. -/
theorem strtok_eq_filter (p : Char → Bool) (s : List Char) :
    strtokAll p s = (splitKeepEmpties p s).filter (fun t => !t.isEmpty) := by
  induction s using strtokAll.induct p with
  | case1 => simp [strtokAll, splitKeepEmpties]
  | case2 c cs hp ih =>
    simp [strtokAll, splitKeepEmpties, hp, ih]
  | case3 c cs hp ih =>
    rw [split_head]
    simp only [List.takeWhile_cons, List.dropWhile_cons, hp, Bool.not_false,
      Bool.false_eq_true, if_false, if_true]
    rw [List.filter_cons]
    simp only [List.isEmpty_cons, Bool.not_false, if_true]
    simp only [strtokAll, hp, Bool.false_eq_true, if_false]
    congr 1
    rcases hd : cs.dropWhile (fun x => !(p x)) with _ | ⟨d, rest⟩
    · rw [hd] at ih
      rw [ih]
      simp [splitKeepEmpties]
    · have hpd : p d := by
        have h2 := List.head_dropWhile_not (fun x => !(p x)) cs (by simp [hd])
        simp only [hd, List.head_cons] at h2
        simpa using h2
      rw [hd] at ih
      rw [ih]
      rw [show splitKeepEmpties p (d :: rest) = [] :: splitKeepEmpties p rest by
        simp [splitKeepEmpties, hpd]]
      simp [List.filter_cons]

/-- Being inside a run, the remaining run count is the count after
discarding the rest of the current run. -/
theorem runCountAux_drop (p : Char → Bool) (cs : List Char) :
    runCountAux p true cs = runCountAux p false (cs.dropWhile (fun x => !(p x))) := by
  induction cs with
  | nil => simp [runCountAux]
  | cons c cs ih =>
    by_cases hp : p c
    · simp [runCountAux, hp, List.dropWhile_cons]
    · simp [runCountAux, hp, List.dropWhile_cons, ih]

/-- The number of `strtok` tokens is the number of maximal runs of
non-delimiter characters. -/
theorem strtok_length (p : Char → Bool) (s : List Char) :
    (strtokAll p s).length = runCount p s := by
  unfold runCount
  induction s using strtokAll.induct p with
  | case1 => simp [strtokAll, runCountAux]
  | case2 c cs hp ih => simp [strtokAll, runCountAux, hp, ih]
  | case3 c cs hp ih =>
    simp only [strtokAll, hp, Bool.false_eq_true, if_false, List.length_cons]
    rw [ih, ← runCountAux_drop]
    simp [runCountAux, hp]
    omega

/-- A line containing at least one non-delimiter character yields at
least one token. -/
theorem strtok_nonempty (p : Char → Bool) (s : List Char) (x : Char)
    (hx : x ∈ s) (hpx : p x = false) : strtokAll p s ≠ [] := by
  induction s using strtokAll.induct p with
  | case1 => simp at hx
  | case2 c cs hp ih =>
    rcases List.mem_cons.1 hx with h | h
    · rw [h] at hpx
      rw [hp] at hpx
      cases hpx
    · simp only [strtokAll, hp, if_true]
      exact ih h
  | case3 c cs hp ih => simp [strtokAll, hp]

/-- The directory loop stops at the first index whose candidate path is
an existing regular file, and yields that candidate. -/
theorem tryDirs_first (reg : List Char → Bool) (msz : Nat) (a0 : List Char)
    (dirs : List (List Char)) (i : Fin dirs.length)
    (hmatch : reg (full_path_of msz (dirs.get i) a0) = true)
    (hbefore : ∀ j : Fin dirs.length, (j : Nat) < (i : Nat) →
      reg (full_path_of msz (dirs.get j) a0) = false) :
    tryDirs reg msz a0 dirs = some (full_path_of msz (dirs.get i) a0) := by
  induction dirs with
  | nil => exact absurd i.isLt (by simp)
  | cons d ds ih =>
    rcases i with ⟨iv, hlt⟩
    cases iv with
    | zero =>
      simp only [List.get] at hmatch
      simp [tryDirs, hmatch]
    | succ n =>
      have h0 : reg (full_path_of msz d a0) = false := hbefore ⟨0, by simp⟩ (by simp)
      simp only [tryDirs, h0, Bool.false_eq_true, if_false]
      have hn : n < ds.length := by simpa using Nat.lt_of_succ_lt_succ hlt
      refine ih ⟨n, hn⟩ hmatch (fun j hj => ?_)
      have hj2 : (j : Nat) < n := hj
      have h3 := hbefore ⟨(j : Nat) + 1, by omega⟩ (by exact Nat.succ_lt_succ hj2)
      simpa using h3

/-- If no directory yields a candidate that is an existing regular file,
the directory loop exhausts the list and yields nothing. -/
theorem tryDirs_none (reg : List Char → Bool) (msz : Nat) (a0 : List Char)
    (dirs : List (List Char)) (h : ∀ d ∈ dirs, reg (full_path_of msz d a0) = false) :
    tryDirs reg msz a0 dirs = none := by
  induction dirs with
  | nil => rfl
  | cons d ds ih =>
    simp only [tryDirs, h d (by simp), Bool.false_eq_true, if_false]
    exact ih (fun x hx => h x (List.mem_cons_of_mem _ hx))

/-- The exit-status test of `execute`
(`WIFEXITED(status) && WEXITSTATUS(status) == 0`) holds exactly for a
normal exit with code 0. -/
theorem wif_exit_zero (st : WaitStatus) :
    (WIFEXITED st && WEXITSTATUS st == 0) = (st == WaitStatus.exited 0) := by
  cases st <;> simp [WIFEXITED, WEXITSTATUS]

/-! ## Claim theorems -/

/-- C1: for an absent (`NULL`) command, a command whose argument list is
empty or whose argument 0 is absent (both rendered by `argv[0]? = none`,
the `NULL` sentinel), `execute` returns ERROR immediately: no process is
spawned and the "command not found" message is not printed; a blank
input line (one whose `strtok` tokenization is empty) parses to a
zero-argument command and is rejected on this same validation path. -/
theorem c1_execute_validates_before_spawn (msz : Nat) (os : OS) (c : command)
    (hc : c.argv[0]? = none) (l : List Char) (hl : strtokAll isWS l = []) (mal : Nat) :
    execute msz os none =
      { effect := .done ERROR, spawned := false, printedNotFound := false } ∧
    execute msz os (some c) =
      { effect := .done ERROR, spawned := false, printedNotFound := false } ∧
    execute msz os (parse mal (some l)) =
      { effect := .done ERROR, spawned := false, printedNotFound := false } := by
  refine ⟨rfl, ?_, ?_⟩
  · simp only [execute, hc]
  · simp only [parse, hl, List.length_nil, List.map_nil]
    simp [execute]

/-- Witness for C1 at a concrete blank line and a concrete OS oracle. -/
theorem c1_witness :
    execute 100 { isRegFile := fun _ => false, path_env := none, home_env := none,
                  chdirOk := fun _ => false, forkFails := false, waitpidFails := false,
                  childStatus := .exited 0 }
        (parse 64 (some [' ', '\t'])) =
      { effect := .done ERROR, spawned := false, printedNotFound := false } :=
  (c1_execute_validates_before_spawn 100 _ { argc := 0, argv := [] } rfl [' ', '\t']
    (by simp +decide [strtokAll, isWS]) 64).2.2

/-- C2 counterexample: the empty line parses successfully (a non-`NULL`
command is returned) yet its argument sequence is empty, so "every
non-null result of parse has argc at least one" is false. -/
theorem c2_counterexample : ∃ c, parse 64 (some []) = some c ∧ ¬ 1 ≤ c.argc := by
  refine ⟨{ argc := 0, argv := [] }, ?_, by simp⟩
  simp [parse, strtokAll]

/-- C2 (amended): for every successfully parsed command of a line that
contains at least one non-whitespace character, the argument sequence is
non-empty (argc is at least one); blank/whitespace-only lines instead
parse to a command with argc = 0. -/
theorem c2_parse_nonempty_of_nonblank (mal : Nat) (l : List Char) (c : command) (x : Char)
    (hx : x ∈ l) (hxw : isWS x = false) (hp : parse mal (some l) = some c) :
    1 ≤ c.argc := by
  have h := strtok_nonempty isWS l x hx hxw
  simp only [parse, Option.some.injEq] at hp
  rw [← hp]
  have h2 : 0 < (strtokAll isWS l).length := List.length_pos.mpr h
  simpa using h2

/-- Witness for the amended C2 at the concrete line `"h"`. -/
theorem c2_witness : 1 ≤ (command.mk 1 [['h']]).argc :=
  c2_parse_nonempty_of_nonblank 64 ['h'] (command.mk 1 [['h']]) 'h' (by simp) (by decide)
    (by simp +decide [parse, strtokAll, isWS])

/-- C3: with `$PATH` set to `p`, path resolution scans the colon tokens
of `p` in listed order and succeeds on the first directory whose
`<dir>/<argv0>` is an existing regular file, rewriting argument 0 to
exactly that concatenated path (the fresh storage holds precisely the
path characters plus the terminator) and returning `true` without trying
later directories.  The hypothesis `hfit` says every candidate path fits
the `MAX_LINE_SIZE` buffer used by `snprintf`, so no candidate is
silently truncated (the numeric value of `MAX_LINE_SIZE` is not in the
sources). -/
theorem c3_find_full_path_first_match (msz : Nat) (reg : List Char → Bool) (p : List Char)
    (cmd : command) (a0 : List Char) (ha : cmd.argv[0]? = some a0)
    (hfit : ∀ d ∈ strtokAll isColon p, (d ++ '/' :: a0).length < msz)
    (i : Fin (strtokAll isColon p).length)
    (hmatch : reg ((strtokAll isColon p).get i ++ '/' :: a0) = true)
    (hbefore : ∀ j : Fin (strtokAll isColon p).length, (j : Nat) < (i : Nat) →
        reg ((strtokAll isColon p).get j ++ '/' :: a0) = false) :
    find_full_path msz reg (some p) (some cmd) =
      (some { cmd with argv := ((strtokAll isColon p).get i ++ '/' :: a0) :: cmd.argv.tail },
       true) := by
  have heq : ∀ d ∈ strtokAll isColon p, full_path_of msz d a0 = d ++ '/' :: a0 := by
    intro d hd
    have h1 := hfit d hd
    unfold full_path_of
    exact List.take_of_length_le (by omega)
  have hdirs := tryDirs_first reg msz a0 (strtokAll isColon p) i
    (by rw [heq _ (List.get_mem _ _ _)]; exact hmatch)
    (fun j hj => by rw [heq _ (List.get_mem _ _ _)]; exact hbefore j hj)
  rw [heq _ (List.get_mem _ _ _)] at hdirs
  simp only [find_full_path, ha, hdirs]

/-- Witness for C3: search path `"/a:/b"`, program `"p"`, a filesystem
on which every candidate exists; resolution picks `/a/p`. -/
theorem c3_witness :
    find_full_path 100 (fun _ => true) (some ['/', 'a', ':', '/', 'b'])
        (some (command.mk 1 [['p']])) =
      (some (command.mk 1 [['/', 'a', '/', 'p']]), true) := by
  have h := c3_find_full_path_first_match 100 (fun _ => true) ['/', 'a', ':', '/', 'b']
    (command.mk 1 [['p']]) ['p'] rfl
    (by simp +decide [strtokAll, isColon])
    ⟨0, by simp +decide [strtokAll, isColon]⟩
    rfl
    (fun j hj => absurd hj (Nat.not_lt_zero _))
  simpa +decide [strtokAll, isColon] using h

/-- C4: when the command is not a builtin, resolution succeeded, `fork`
succeeded and `waitpid` succeeded, `execute` returns SUCCESS exactly
when the child terminated normally with exit code 0, and ERROR for
every other termination — the child's specific code or signal number is
not propagated, only the binary SUCCESS/ERROR distinction. -/
theorem c4_execute_wait_status (msz : Nat) (os : OS) (c : command) (a0 : List Char)
    (ha : c.argv[0]? = some a0) (hnb : is_builtin c = false)
    (hfind : (find_full_path msz os.isRegFile os.path_env (some c)).2 = true)
    (hfork : os.forkFails = false) (hwait : os.waitpidFails = false) :
    execute msz os (some c) =
      { effect := .done (if os.childStatus = .exited 0 then SUCCESS else ERROR),
        spawned := true, printedNotFound := false } := by
  rcases hfp : find_full_path msz os.isRegFile os.path_env (some c) with ⟨c2, b⟩
  rw [hfp] at hfind
  simp only at hfind
  subst hfind
  simp only [execute, ha, hnb, Bool.false_eq_true, if_false, hfp, hfork, hwait,
    wif_exit_zero]
  by_cases hst : os.childStatus = .exited 0
  · simp [hst]
  · simp [hst]

/-- Witness for C4: a resolvable external command whose child exits
normally with code 0 yields SUCCESS. -/
theorem c4_witness :
    execute 100 { isRegFile := fun _ => true, path_env := some ['/', 'b'], home_env := none,
                  chdirOk := fun _ => true, forkFails := false, waitpidFails := false,
                  childStatus := .exited 0 }
        (some (command.mk 1 [['l', 's']])) =
      { effect := .done SUCCESS, spawned := true, printedNotFound := false } := by
  have h := c4_execute_wait_status 100
    { isRegFile := fun _ => true, path_env := some ['/', 'b'], home_env := none,
      chdirOk := fun _ => true, forkFails := false, waitpidFails := false,
      childStatus := .exited 0 }
    (command.mk 1 [['l', 's']]) ['l', 's'] rfl (by decide)
    (by simp +decide [find_full_path, tryDirs, full_path_of, strtokAll, isColon])
    rfl rfl
  simpa using h

/-- C5: when path resolution fails — `$PATH` unset, or no directory of
the search path yields an existing regular file — `find_full_path`
returns `false` and the command (in particular its argument 0) is
returned exactly as it was passed in. -/
theorem c5_find_full_path_failure_frame (msz : Nat) (reg : List Char → Bool)
    (penv : Option (List Char)) (cmd : command)
    (h : penv = none ∨ ∀ a0, cmd.argv[0]? = some a0 → ∀ p, penv = some p →
        ∀ d ∈ strtokAll isColon p, reg (full_path_of msz d a0) = false) :
    find_full_path msz reg penv (some cmd) = (some cmd, false) := by
  rcases ha : cmd.argv[0]? with _ | a0
  · simp only [find_full_path, ha]
  · rcases hp : penv with _ | p
    · simp only [find_full_path, ha]
    · rcases h with h | h
      · rw [hp] at h
        cases h
      · have hnone := tryDirs_none reg msz a0 (strtokAll isColon p) (h a0 ha p hp)
        simp only [find_full_path, ha, hnone]

/-- Witness for C5: a filesystem with no regular files leaves the
command unchanged and reports failure. -/
theorem c5_witness :
    find_full_path 100 (fun _ => false) (some ['/', 'a'])
        (some (command.mk 1 [['z']])) = (some (command.mk 1 [['z']]), false) :=
  c5_find_full_path_failure_frame 100 (fun _ => false) (some ['/', 'a'])
    (command.mk 1 [['z']]) (Or.inr (fun _ _ _ _ _ _ => rfl))

/-- C6: each stored argument is the first `MAX_ARG_LEN - 1` characters
of its token, so it never exceeds `MAX_ARG_LEN - 1` characters (the
terminator always fits in the `MAX_ARG_LEN`-byte slot), and for a token
longer than `MAX_ARG_LEN` the stored argument is exactly
`MAX_ARG_LEN - 1` characters of the token. -/
theorem c6_parse_truncation_safety (mal : Nat) (l : List Char) (c : command)
    (hp : parse mal (some l) = some c) :
    c.argv = (strtokAll isWS l).map (fun t => t.take (mal - 1)) ∧
    (∀ a ∈ c.argv, a.length ≤ mal - 1) ∧
    (∀ t ∈ strtokAll isWS l, mal < t.length → (t.take (mal - 1)).length = mal - 1) := by
  simp only [parse, Option.some.injEq] at hp
  rw [← hp]
  refine ⟨rfl, ?_, ?_⟩
  · intro a hamem
    rcases List.mem_map.1 hamem with ⟨t, _, rfl⟩
    simp [List.length_take]
  · intro t _ hlen
    simp only [List.length_take]
    omega

/-- Witness for C6: with `MAX_ARG_LEN = 3`, the token `"abcd"` is
stored as the two characters `"ab"`. -/
theorem c6_witness :
    ((command.mk 1 [['a', 'b']]).argv =
        (strtokAll isWS ['a', 'b', 'c', 'd']).map (fun t => t.take (3 - 1))) ∧
    (∀ a ∈ (command.mk 1 [['a', 'b']]).argv, a.length ≤ 3 - 1) ∧
    (∀ t ∈ strtokAll isWS ['a', 'b', 'c', 'd'], 3 < t.length →
      (t.take (3 - 1)).length = 3 - 1) :=
  c6_parse_truncation_safety 3 ['a', 'b', 'c', 'd'] (command.mk 1 [['a', 'b']])
    (by simp +decide [parse, strtokAll, isWS])

/-- C7: the argument count of a parsed line equals the number of maximal
non-whitespace runs of the line (consecutive delimiters collapse,
leading/trailing delimiters contribute nothing), and no token is the
empty string. -/
theorem c7_parse_token_runs (mal : Nat) (l : List Char) (c : command)
    (hp : parse mal (some l) = some c) :
    c.argc = runCount isWS l ∧ ∀ t ∈ strtokAll isWS l, t ≠ [] := by
  simp only [parse, Option.some.injEq] at hp
  rw [← hp]
  exact ⟨strtok_length isWS l, strtok_ne_nil isWS l⟩

/-- Witness for C7 at the concrete line `" a  b"` (two runs). -/
theorem c7_witness :
    (command.mk 2 [['a'], ['b']]).argc = runCount isWS [' ', 'a', ' ', ' ', 'b'] ∧
    ∀ t ∈ strtokAll isWS [' ', 'a', ' ', ' ', 'b'], t ≠ [] :=
  c7_parse_token_runs 64 [' ', 'a', ' ', ' ', 'b'] (command.mk 2 [['a'], ['b']])
    (by simp +decide [parse, strtokAll, isWS])

/-- C8: for a command whose argument 0 is `"cd"` with exactly one extra
argument (argc = 2), `do_builtin` changes directory to that argument and
returns SUCCESS when `chdir` succeeds and ERROR when it fails. -/
theorem c8_do_builtin_cd_two_args (os : OS) (c : command) (d : List Char)
    (h0 : c.argv[0]? = some cdChars) (h2 : c.argc = 2) (h1 : c.argv[1]? = some d) :
    do_builtin os c = .ret (if os.chdirOk (some d) then SUCCESS else ERROR) := by
  simp only [do_builtin, h0, h2, h1]
  norm_num [cdChars, exitChars, chdir, SUCCESS, ERROR]

/-- Witness for C8: `cd /t` with a succeeding `chdir` returns SUCCESS. -/
theorem c8_witness :
    do_builtin { isRegFile := fun _ => false, path_env := none, home_env := none,
                 chdirOk := fun _ => true, forkFails := false, waitpidFails := false,
                 childStatus := .exited 0 }
        (command.mk 2 [cdChars, ['/', 't']]) = .ret SUCCESS := by
  have h := c8_do_builtin_cd_two_args
    { isRegFile := fun _ => false, path_env := none, home_env := none,
      chdirOk := fun _ => true, forkFails := false, waitpidFails := false,
      childStatus := .exited 0 }
    (command.mk 2 [cdChars, ['/', 't']]) ['/', 't'] rfl rfl rfl
  simpa using h

/-- C9: for any command whose argument 0 is `"exit"`, `do_builtin`
terminates the owning process with the SUCCESS status however many
extra arguments are present; no `.ret` value is ever produced, so
control never returns to the caller. -/
theorem c9_do_builtin_exit (os : OS) (c : command) (h : c.argv[0]? = some exitChars) :
    do_builtin os c = .exitProcess SUCCESS := by
  simp [do_builtin, h]

/-- Witness for C9: `exit a b` (two extra arguments) still terminates
the process with SUCCESS. -/
theorem c9_witness :
    do_builtin { isRegFile := fun _ => false, path_env := none, home_env := none,
                 chdirOk := fun _ => false, forkFails := false, waitpidFails := false,
                 childStatus := .exited 0 }
        (command.mk 3 [exitChars, ['a'], ['b']]) = .exitProcess SUCCESS :=
  c9_do_builtin_exit _ (command.mk 3 [exitChars, ['a'], ['b']]) rfl

/-- C10: the `strtok(":")` loop of `find_full_path` tokenizes the search
path into exactly its non-empty colon-separated segments, in order —
empty segments from leading, trailing or doubled colons are skipped
rather than treated as the current directory — and consequently the
directory scan over the tokens coincides with the scan over the
non-empty segments. -/
theorem c10_colon_segments (p : List Char) :
    strtokAll isColon p = (splitKeepEmpties isColon p).filter (fun t => !t.isEmpty) ∧
    ∀ (msz : Nat) (reg : List Char → Bool) (a0 : List Char),
      tryDirs reg msz a0 (strtokAll isColon p) =
        tryDirs reg msz a0 ((splitKeepEmpties isColon p).filter (fun t => !t.isEmpty)) := by
  refine ⟨strtok_eq_filter isColon p, fun msz reg a0 => ?_⟩
  rw [strtok_eq_filter]
